import Mathlib

/-!
Verification of the authorization decision engine of a multi-protocol
remote-access gateway: role/label/rule matching with trait interpolation and
the multi-party access-request approval state machine.

The repository snapshot carries the engine's test suite
(`lib/services` tests) and the design documents, while the engine
implementation itself (`lib/services/role.go` and the access-request logic)
is not part of the snapshot.  The definitions below are therefore modelled
from the specification, with every behavioural choice pinned down by the
test suite where the tests exercise it.
-/

set_option maxRecDepth 10000

/-- Modelled from the spec: the wildcard token used for label keys, label
patterns, namespaces, rule resources and rule verbs. -/
def Wildcard : String := "*"

/-- Keep the first occurrence of every element, dropping later duplicates
(the semantics of the deduplication applied to expanded role fields). -/
def dedupAux [DecidableEq α] (seen : List α) : List α → List α
  | [] => []
  | x :: xs => if x ∈ seen then dedupAux seen xs else x :: dedupAux (x :: seen) xs

/-- Deduplicate a list keeping first occurrences in order. -/
def dedupFirst [DecidableEq α] (l : List α) : List α := dedupAux [] l

/-- Glob matching over character lists: a literal character must match
exactly, while the glob character matches any (possibly empty) run of
characters.  A pattern with no glob character is exact string equality. -/
def globChars : List Char → List Char → Bool
  | [], v => v.isEmpty
  | '*' :: ps, v => v.tails.any fun t => globChars ps t
  | _ :: _, [] => false
  | p :: ps, c :: vs => (p == c) && globChars ps vs

/-- Modelled from the spec: a single selector pattern matched against a label
value — exact string equality, with `*` treated as a glob wildcard (the
anchored-regular-expression pattern form is expressible but not needed by any
claim; glob subsumes the literal and wildcard cases the claims exercise). -/
def matchPattern (pattern value : String) : Bool :=
  globChars pattern.toList value.toList

/-- A label selector: map from label key to the list of allowed value
patterns (represented as an association list). -/
abbrev Labels := List (String × List String)

/-- A resource's labels: map from label key to its value. -/
abbrev LabelValues := List (String × String)

/-- Modelled from the spec (Label Matcher, absent from the snapshot): an
empty selector matches nothing; the selector `{*: [*]}` short-circuits to a
match for every resource, even one with zero labels; otherwise every selector
key must be present on the resource with a value matched by at least one of
the listed patterns (an empty pattern list for a key therefore matches
nothing).  Pinned by the server / remote-cluster / Kubernetes label tests. -/
def MatchLabels (selector : Labels) (target : LabelValues) : Bool :=
  if selector.isEmpty then false
  else if (selector.lookup Wildcard) == some [Wildcard] then true
  else selector.all fun kv =>
    match target.lookup kv.1 with
    | none => false
    | some v => kv.2.any fun p => matchPattern p v

/-- Modelled from the spec: empty namespaces are normalized to the default
namespace before matching. -/
def processNamespace (ns : String) : String :=
  if ns = "" then "default" else ns

/-- Modelled from the spec: a namespace selector matches a namespace when it
lists the namespace itself or the wildcard. -/
def matchNamespace (selectors : List String) (ns : String) : Bool :=
  selectors.any fun n => n == ns || n == Wildcard

/-- Modelled from the spec: a `where` predicate of a rule, a single
function-call expression from the closed registry, applied to a field of the
evaluation context and a string literal. -/
structure WhereExpr where
  fn : String
  field : String
  value : String
deriving DecidableEq

/-- Modelled from the spec: a side-effect statement of a rule (for example a
structured log emission), a function call from the closed action registry. -/
structure ActionExpr where
  fn : String
  args : List String
deriving DecidableEq

/-- Modelled from the spec: a rule is a (resource-kind set, verb set,
optional predicate, side-effect actions) tuple. -/
structure Rule where
  Resources : List String := []
  Verbs : List String := []
  Where : Option WhereExpr := none
  Actions : List ActionExpr := []
deriving DecidableEq

/-- Modelled from the spec: the evaluation context of a `where` predicate,
exposing the principal's identity and traits and the target resource's
labels. -/
structure Context where
  userName : String := ""
  userTraits : List (String × List String) := []
  resourceLabels : LabelValues := []
deriving DecidableEq

/-- The multi-valued trait lookup used by predicates and interpolation:
a missing trait name yields the empty value set. -/
def traitValues (traits : List (String × List String)) (name : String) : List String :=
  (traits.lookup name).getD []

/-- The closed registry of functions supported in `where` predicates. -/
def supportedWhereFunctions : List String := ["contains", "equals"]

/-- The closed registry of functions supported in rule actions. -/
def supportedActionFunctions : List String := ["log"]

/-- Modelled from the spec: evaluation of a `where` predicate against the
context.  `contains` tests membership of the literal in the named user
trait; `equals` compares the named resource label against the literal. -/
def evalWhere (ctx : Context) (w : WhereExpr) : Bool :=
  if w.fn == "contains" then (traitValues ctx.userTraits w.field).contains w.value
  else if w.fn == "equals" then ctx.resourceLabels.lookup w.field == some w.value
  else false

/-- A rule with no `where` clause matches unconditionally; otherwise its
predicate is evaluated against the context. -/
def matchWhere (ctx : Context) : Option WhereExpr → Bool
  | none => true
  | some w => evalWhere ctx w

/-- A rule covers a verb when its verb set lists the verb or the wildcard. -/
def Rule.hasVerb (r : Rule) (verb : String) : Bool :=
  r.Verbs.any fun v => v == verb || v == Wildcard

/-- Modelled from the spec: per-role limits and the session TTL bound
(durations and counts as naturals; a zero limit means unset). -/
structure RoleOptions where
  MaxSessionTTL : Nat := 0
  MaxConnections : Nat := 0
  MaxSessions : Nat := 0
deriving DecidableEq

/-- Modelled from the spec: one condition block of a role (the Allow block
or the Deny block): label selectors per resource class, login and database
grant lists, namespaces in scope, and resource/verb rules. -/
structure RoleConditions where
  Namespaces : List String := []
  Logins : List String := []
  NodeLabels : Labels := []
  ClusterLabels : Labels := []
  KubernetesLabels : Labels := []
  DatabaseLabels : Labels := []
  DatabaseNames : List String := []
  DatabaseUsers : List String := []
  KubeGroups : List String := []
  KubeUsers : List String := []
  Rules : List Rule := []
deriving DecidableEq

/-- Modelled from the spec: a named policy unit with an Allow and a Deny
condition block (asymmetric: Deny always wins) and per-role options. -/
structure RoleV3 where
  Name : String := ""
  Options : RoleOptions := {}
  Allow : RoleConditions := {}
  Deny : RoleConditions := {}
deriving DecidableEq

/-- A role set is the ordered list of roles assigned to a principal for one
authorization decision. -/
abbrev RoleSet := List RoleV3

/-- The access-control error taxonomy: an explicit denial (or no allow
match), a role set granting nothing at all, and a malformed role definition
rejected at validation time. -/
inductive TraceError where
  | accessDenied (msg : String)
  | notFound (msg : String)
  | badParameter (msg : String)
deriving DecidableEq

instance [DecidableEq ε] [DecidableEq α] : DecidableEq (Except ε α) := fun x y =>
  match x, y with
  | .ok a, .ok b =>
    if h : a = b then isTrue (by subst h; rfl) else isFalse (by intro hc; injection hc; contradiction)
  | .error a, .error b =>
    if h : a = b then isTrue (by subst h; rfl) else isFalse (by intro hc; injection hc; contradiction)
  | .ok _, .error _ => isFalse (by intro hc; injection hc)
  | .error _, .ok _ => isFalse (by intro hc; injection hc)

/-- Recognizer for denial errors, mirroring the error-kind checks callers
perform. -/
def TraceError.isAccessDenied : TraceError → Bool
  | .accessDenied _ => true
  | _ => false

/-- Recognizer for not-found errors. -/
def TraceError.isNotFound : TraceError → Bool
  | .notFound _ => true
  | _ => false

/-- Denial recognizer lifted to check results. -/
def isAccessDeniedRes (r : Except TraceError α) : Bool :=
  match r with
  | .error e => e.isAccessDenied
  | .ok _ => false

/-- Not-found recognizer lifted to check results. -/
def isNotFoundRes (r : Except TraceError α) : Bool :=
  match r with
  | .error e => e.isNotFound
  | .ok _ => false

/-- A server resource: name, namespace and labels. -/
structure Server where
  Name : String := ""
  Namespace : String := ""
  Labels : LabelValues := []
deriving DecidableEq

/-- Modelled from the spec: server access composes, across every role, a
namespace check, the node-label match and login membership — deny first
(a deny block matching the namespace together with either its labels or the
login denies), then any allow block matching all three grants. -/
def checkAccessToServer (set : RoleSet) (login : String) (s : Server) : Except TraceError Unit :=
  if set.any (fun role =>
      matchNamespace role.Deny.Namespaces (processNamespace s.Namespace) &&
      (MatchLabels role.Deny.NodeLabels s.Labels || role.Deny.Logins.contains login)) then
    .error (.accessDenied "access to server denied")
  else if set.any (fun role =>
      matchNamespace role.Allow.Namespaces (processNamespace s.Namespace) &&
      MatchLabels role.Allow.NodeLabels s.Labels &&
      role.Allow.Logins.contains login) then
    .ok ()
  else
    .error (.accessDenied "access to server denied")

/-- Modelled from the spec: Kubernetes cluster access is the namespace check
plus the kubernetes-label match, deny first. -/
def checkAccessToKubernetes (set : RoleSet) (ns : String) (labels : LabelValues) : Except TraceError Unit :=
  if set.any (fun role =>
      matchNamespace role.Deny.Namespaces (processNamespace ns) &&
      MatchLabels role.Deny.KubernetesLabels labels) then
    .error (.accessDenied "access to kubernetes cluster denied")
  else if set.any (fun role =>
      matchNamespace role.Allow.Namespaces (processNamespace ns) &&
      MatchLabels role.Allow.KubernetesLabels labels) then
    .ok ()
  else
    .error (.accessDenied "access to kubernetes cluster denied")

/-- Modelled from the spec: database server access is the namespace check
plus the database-label match, deny first. -/
def checkAccessToDatabaseServer (set : RoleSet) (ns : String) (labels : LabelValues) : Except TraceError Unit :=
  if set.any (fun role =>
      matchNamespace role.Deny.Namespaces (processNamespace ns) &&
      MatchLabels role.Deny.DatabaseLabels labels) then
    .error (.accessDenied "access to database denied")
  else if set.any (fun role =>
      matchNamespace role.Allow.Namespaces (processNamespace ns) &&
      MatchLabels role.Allow.DatabaseLabels labels) then
    .ok ()
  else
    .error (.accessDenied "access to database denied")

/-- Does any role of the set constrain remote clusters by labels at all?  For
backwards compatibility a set using no cluster labels grants unlabelled
clusters. -/
def roleSetUsesClusterLabels (set : RoleSet) : Bool :=
  set.any fun role => !role.Allow.ClusterLabels.isEmpty || !role.Deny.ClusterLabels.isEmpty

/-- Modelled from the spec: remote-cluster access matches the cluster-label
selectors, deny first, with one carve-out pinned by the tests — when no role
in the set mentions cluster labels and the cluster itself has no labels, the
set grants access. -/
def checkAccessToRemoteCluster (set : RoleSet) (labels : LabelValues) : Except TraceError Unit :=
  if set.isEmpty then .error (.accessDenied "access to cluster denied")
  else if !roleSetUsesClusterLabels set && labels.isEmpty then .ok ()
  else if set.any (fun role => MatchLabels role.Deny.ClusterLabels labels) then
    .error (.accessDenied "access to cluster denied")
  else if set.any (fun role => MatchLabels role.Allow.ClusterLabels labels) then
    .ok ()
  else
    .error (.accessDenied "access to cluster denied")

/-- Modelled from the spec: the specificity of a rule — a rule with both a
`where` clause and actions is more specific than a rule with only a `where`
clause, which is more specific than a rule with neither. -/
def ruleScore (r : Rule) : Nat :=
  (if r.Where.isSome then 2 else 0) + (if r.Actions.isEmpty then 0 else 1)

/-- Stable most-specific-first ordering of a rule list: rules are bucketed by
descending specificity, declaration order kept inside each bucket. -/
def sortRules (l : List Rule) : List Rule :=
  l.filter (fun r => ruleScore r == 3) ++ l.filter (fun r => ruleScore r == 2) ++
    l.filter (fun r => ruleScore r == 1) ++ l.filter (fun r => ruleScore r == 0)

/-- A rule set maps each resource kind to the rules declared for it,
most specific first. -/
abbrev RuleSet := List (String × List Rule)

/-- Append a rule to the bucket of one resource kind, creating the bucket at
the end when the kind is new. -/
def insertRule (kind : String) (r : Rule) : RuleSet → RuleSet
  | [] => [(kind, [r])]
  | (k, rs) :: rest =>
    if k == kind then (k, rs ++ [r]) :: rest else (k, rs) :: insertRule kind r rest

/-- Modelled from the spec: build a rule set from a rule list — every rule is
filed under each resource kind it names, and each kind's bucket is sorted
most-specific first (ties kept in declaration order). -/
def MakeRuleSet (rules : List Rule) : RuleSet :=
  let grouped := rules.foldl (fun rs r => r.Resources.foldl (fun rs kind => insertRule kind r rs) rs) []
  grouped.map fun kv => (kv.1, sortRules kv.2)

/-- The bucket of a resource kind in a rule set (empty when the kind has no
rules). -/
def rulesFor (rs : RuleSet) (kind : String) : List Rule :=
  (rs.lookup kind).getD []

/-- Modelled from the spec: match a rule set against a resource kind and
verb in a context — the rules filed under the exact kind are scanned before
the rules filed under the wildcard kind, most specific first, and the first
rule whose verbs and `where` predicate match decides; its actions are the
observable side effect of the decision. -/
def ruleSetMatch (ctx : Context) (rs : RuleSet) (kind verb : String) : Option (List ActionExpr) :=
  (rulesFor rs kind ++ rulesFor rs Wildcard).findSome? fun r =>
    if r.hasVerb verb && matchWhere ctx r.Where then some r.Actions else none

/-- Does this role's Deny block deny the (namespace, kind, verb) query in the
given context? -/
def roleDenyMatches (ctx : Context) (ns kind verb : String) (role : RoleV3) : Bool :=
  matchNamespace role.Deny.Namespaces (processNamespace ns) &&
    (ruleSetMatch ctx (MakeRuleSet role.Deny.Rules) kind verb).isSome

/-- The decision of this role's Allow block for the (namespace, kind, verb)
query: the deciding rule's actions when the block grants it. -/
def roleAllowMatches (ctx : Context) (ns kind verb : String) (role : RoleV3) : Option (List ActionExpr) :=
  if matchNamespace role.Allow.Namespaces (processNamespace ns) then
    ruleSetMatch ctx (MakeRuleSet role.Allow.Rules) kind verb
  else none

/-- Modelled from the spec (Rule Set Evaluator, absent from the snapshot):
if any role's Deny rules match the query, the result is Deny immediately —
deny overrides allow regardless of specificity; otherwise the first role
whose Allow rules match decides, returning Allow together with the deciding
rule's actions as the observable side effect; with no matching Allow rule the
result is Deny. -/
def checkAccessToRule (set : RoleSet) (ctx : Context) (ns kind verb : String) :
    Except TraceError (List ActionExpr) :=
  if set.any (roleDenyMatches ctx ns kind verb) then
    .error (.accessDenied "access to rule denied")
  else
    match set.findSome? (roleAllowMatches ctx ns kind verb) with
    | some actions => .ok actions
    | none => .error (.accessDenied "access to rule denied")

/-- One step of limit resolution: a nonzero candidate replaces the
accumulator when it is smaller or the accumulator is still unset (zero). -/
def limitStep (acc v : Nat) : Nat :=
  if v ≠ 0 ∧ (v < acc ∨ acc = 0) then v else acc

/-- Modelled from the spec: resolve one limit across a role set — the
smallest nonzero value wins; a value of zero means unset and is skipped, so
a list with no nonzero value resolves to zero (unlimited). -/
def resolveLimit (vals : List Nat) : Nat :=
  vals.foldl limitStep 0

/-- The nonzero values of a limit list (a limit of zero means unset). -/
def nonzeroVals (l : List Nat) : List Nat := l.filter (fun v => v != 0)

/-- Modelled from the spec: the effective maximum number of connections of a
role set. -/
def RoleSet.MaxConnections (set : RoleSet) : Nat :=
  resolveLimit (set.map fun role => role.Options.MaxConnections)

/-- Modelled from the spec: the effective maximum number of sessions of a
role set. -/
def RoleSet.MaxSessions (set : RoleSet) : Nat :=
  resolveLimit (set.map fun role => role.Options.MaxSessions)

/-- Does some role of the set admit the requested session TTL (or is the TTL
check overridden)? -/
def matchedSessionTTL (set : RoleSet) (ttl : Nat) (overrideTTL : Bool) : Bool :=
  set.any fun role => overrideTTL || decide (ttl ≤ role.Options.MaxSessionTTL)

/-- The database names granted by the Allow blocks of the roles admitting
the requested TTL, first occurrences kept. -/
def allowedDatabaseNames (set : RoleSet) (ttl : Nat) (overrideTTL : Bool) : List String :=
  dedupFirst (set.map fun role =>
    if overrideTTL || decide (ttl ≤ role.Options.MaxSessionTTL) then role.Allow.DatabaseNames else []).flatten

/-- The database users granted by the Allow blocks of the roles admitting
the requested TTL, first occurrences kept. -/
def allowedDatabaseUsers (set : RoleSet) (ttl : Nat) (overrideTTL : Bool) : List String :=
  dedupFirst (set.map fun role =>
    if overrideTTL || decide (ttl ≤ role.Options.MaxSessionTTL) then role.Allow.DatabaseUsers else []).flatten

/-- The database names denied by any role's Deny block. -/
def deniedDatabaseNames (set : RoleSet) : List String :=
  (set.map fun role => role.Deny.DatabaseNames).flatten

/-- The database users denied by any role's Deny block. -/
def deniedDatabaseUsers (set : RoleSet) : List String :=
  (set.map fun role => role.Deny.DatabaseUsers).flatten

/-- Modelled from the spec: enumerate the database names and users a role set
grants for a session of the requested TTL.  A TTL no role's max_session_ttl
admits (and no override) is AccessDenied; a role set granting no database
names or users at all is NotFound, distinguished from an explicit deny;
otherwise the union of the allowed names/users minus any role's denied
names/users is returned. -/
def checkDatabaseNamesAndUsers (set : RoleSet) (ttl : Nat) (overrideTTL : Bool) :
    Except TraceError (List String × List String) :=
  if !matchedSessionTTL set ttl overrideTTL then
    .error (.accessDenied "this user cannot request database access for the requested time")
  else
    let names := allowedDatabaseNames set ttl overrideTTL
    let users := allowedDatabaseUsers set ttl overrideTTL
    if names.isEmpty && users.isEmpty then
      .error (.notFound "this user cannot request database access, has no assigned database names or users")
    else
      .ok (names.filter (fun n => !(deniedDatabaseNames set).contains n),
           users.filter (fun u => !(deniedDatabaseUsers set).contains u))

/-- The roles of the database names/users test fixtures. -/
def roleDbEmpty : RoleV3 :=
  { Name := "roleA", Options := { MaxSessionTTL := 1 }, Allow := { Namespaces := ["default"] } }

/-- Test fixture: a role granting two database names and users under a
two-hour session TTL. -/
def roleDbA : RoleV3 :=
  { Name := "roleA", Options := { MaxSessionTTL := 2 },
    Allow := { Namespaces := ["default"],
               DatabaseNames := ["postgres", "main"], DatabaseUsers := ["postgres", "alice"] } }

/-- Test fixture: a role granting one name/user and denying another under a
one-hour session TTL. -/
def roleDbB : RoleV3 :=
  { Name := "roleB", Options := { MaxSessionTTL := 1 },
    Allow := { Namespaces := ["default"],
               DatabaseNames := ["metrics"], DatabaseUsers := ["bob"] },
    Deny := { Namespaces := ["default"],
              DatabaseNames := ["postgres"], DatabaseUsers := ["postgres"] } }

/-- The first unsupported function named by a rule's actions, if any. -/
def actionsUnsupportedFunction (r : Rule) : Option String :=
  r.Actions.findSome? fun a =>
    if supportedActionFunctions.contains a.fn then none else some a.fn

/-- Modelled from the spec: the first function a rule references outside the
closed registries — in its `where` clause, then in its actions. -/
def Rule.unsupportedFunction (r : Rule) : Option String :=
  match r.Where with
  | some w =>
    if supportedWhereFunctions.contains w.fn then actionsUnsupportedFunction r
    else some w.fn
  | none => actionsUnsupportedFunction r

/-- Modelled from the spec (role validation, absent from the snapshot): a
role whose rules reference a function outside the closed supported-function
registry is rejected with BadParameter when the role is loaded, so an
unsupported expression never reaches evaluation time. -/
def ValidateRole (r : RoleV3) : Except TraceError Unit :=
  match (r.Allow.Rules ++ r.Deny.Rules).findSome? Rule.unsupportedFunction with
  | some fn => .error (.badParameter ("unsupported function: " ++ fn))
  | none => .ok ()

/-- Modelled from the spec: a role-field template parsed at role-load time —
a plain literal, a trait reference (external or internal namespace), a
single-level function call extracting the local part of an email trait, or a
syntactically malformed entry (unterminated braces, unsupported function
name, wrong arity). -/
inductive Template where
  | literal (s : String)
  | traitVar (nsp name : String)
  | emailLocal (nsp name : String)
  | malformed (s : String)
deriving DecidableEq

/-- The internal trait names a template may reference; other internal
references are rejected during expansion. -/
def internalTraitNames : List String :=
  ["logins", "kube_groups", "kube_users", "db_names", "db_users"]

/-- Split a character list on a separator character; the separator is
dropped and empty segments are kept. -/
def splitOnChar (sep : Char) (l : List Char) : List (List Char) :=
  l.foldr
    (fun c acc =>
      match acc with
      | [] => [[c]]
      | cur :: rest => if c = sep then [] :: cur :: rest else (c :: cur) :: rest)
    [[]]

/-- The local part of an email address, with an optional display name
(`Bar <bar@example.com>` yields `bar`). -/
def emailLocalPart (s : String) : String :=
  let cs := s.toList
  let parts := splitOnChar '<' cs
  let addr :=
    if parts.length ≥ 2 then (splitOnChar '>' (parts.getD 1 [])).headD []
    else cs
  String.mk ((splitOnChar '@' addr).headD [])

/-- Modelled from the spec: expand one template against the trait map.  A
literal passes through; a trait reference expands to the trait's values, with
a missing or empty trait yielding no output (`none`, treated as not-found);
a malformed entry also yields no output. -/
def applyValueTraits (traits : List (String × List String)) : Template → Option (List String)
  | .literal s => some [s]
  | .malformed _ => none
  | .traitVar nsp name =>
    if nsp == "internal" && !internalTraitNames.contains name then none
    else
      let vs := traitValues traits name
      if vs.isEmpty then none else some vs
  | .emailLocal nsp name =>
    if nsp == "internal" && !internalTraitNames.contains name then none
    else
      let vs := traitValues traits name
      if vs.isEmpty then none else some (vs.map emailLocalPart)

/-- A valid login name for the target operating system: nonempty and not
option-like (the full source check also restricts the character set; the
tests exercise the leading-dash case). -/
def isValidUnixUser (s : String) : Bool :=
  match s.toList with
  | [] => false
  | c :: _ => c != '-'

/-- Modelled from the spec: expand a list field of a role (logins, kube
groups/users, db names/users) — every template expands in order, entries
whose expansion fails are dropped silently, login fields additionally filter
out invalid OS user names, and the result keeps first occurrences only. -/
def expandField (traits : List (String × List String)) (unixCheck : Bool)
    (ts : List Template) : List String :=
  dedupFirst ((ts.map fun t =>
    match applyValueTraits traits t with
    | none => []
    | some vs => if unixCheck then vs.filter isValidUnixUser else vs).flatten)

/-- Modelled from the spec: expand a label key — a failed expansion becomes
the empty string, and only the first value of a multi-valued trait is used. -/
def expandLabelKey (traits : List (String × List String)) (t : Template) : String :=
  ((applyValueTraits traits t).getD [""]).headD ""

/-- Modelled from the spec: expand the pattern list of one label key — every
value expands to all its trait values, a failed expansion becomes the empty
string, and the result keeps first occurrences only. -/
def expandLabelValues (traits : List (String × List String)) (ts : List Template) : List String :=
  dedupFirst ((ts.map fun t => (applyValueTraits traits t).getD [""]).flatten)

/-- Modelled from the spec: expand a whole label selector. -/
def expandLabels (traits : List (String × List String))
    (sel : List (Template × List Template)) : List (String × List String) :=
  sel.map fun kv => (expandLabelKey traits kv.1, expandLabelValues traits kv.2)

/-- Lexicographic order on character lists, by code point. -/
def charListLe : List Char → List Char → Bool
  | [], _ => true
  | _ :: _, [] => false
  | a :: as, b :: bs =>
    if a.toNat < b.toNat then true
    else if b.toNat < a.toNat then false
    else charListLe as bs

/-- Lexicographic order on strings, by code point. -/
def stringLe (a b : String) : Bool := charListLe a.toList b.toList

/-- Insert a string into a sorted list, keeping it sorted. -/
def insertSortedString (x : String) : List String → List String
  | [] => [x]
  | y :: ys => if stringLe x y then x :: y :: ys else y :: insertSortedString x ys

/-- Stable insertion sort on strings. -/
def sortStrings : List String → List String
  | [] => []
  | x :: xs => insertSortedString x (sortStrings xs)

/-- Modelled from the spec: normalization of a proposal's role subset —
duplicates removed and the role names stably sorted, so two proposals for
the same set of roles tally together. -/
def normalizeRoles (roles : List String) : List String :=
  sortStrings (dedupFirst roles)

/-- Is every element of the first list present in the second? -/
def subsetOf (xs ys : List String) : Bool :=
  xs.all fun x => ys.contains x

/-- The lifecycle states of an access request. -/
inductive RequestState where
  | pending
  | approved
  | denied
deriving DecidableEq

/-- A proposal's decision. -/
inductive ProposalDecision where
  | approve
  | deny
deriving DecidableEq

/-- Modelled from the spec: one principal's vote on an access request — the
author, the decision, an optional role-subset override (defaulting to the
full originally-requested set), a reason and annotations. -/
structure Proposal where
  author : String
  decision : ProposalDecision
  roleSubset : Option (List String) := none
  reason : String := ""
  annotations : List (String × List String) := []
deriving DecidableEq

/-- Modelled from the spec: an access request — requester, the originally
requested roles, the state, the approval threshold, the ordered proposal
list, and the resolution fields populated on a terminal transition. -/
structure AccessRequest where
  requester : String
  requestedRoles : List String
  state : RequestState := .pending
  approvalThreshold : Nat := 1
  proposals : List Proposal := []
  resolvedRoles : List String := []
  resolvedAnnotations : List (String × List String) := []
  suggestedReviewers : List String := []
deriving DecidableEq

/-- The normalized role subset a proposal votes for, with an omitted
override defaulting to the full originally-requested set. -/
def proposalSubset (requestedRoles : List String) (p : Proposal) : List String :=
  normalizeRoles (p.roleSubset.getD requestedRoles)

/-- Modelled from the spec: the per-outcome vote tally — the number of
approve-proposals whose normalized role subset is exactly the given one. -/
def tallyCount (requestedRoles : List String) (proposals : List Proposal) (s : List String) : Nat :=
  (proposals.filter fun p =>
    p.decision == .approve && proposalSubset requestedRoles p == s).length

/-- Add one annotation key's values into an annotation map, deduplicating
values key-wise. -/
def annUpsert (k : String) (vs : List String) : List (String × List String) → List (String × List String)
  | [] => [(k, dedupFirst vs)]
  | (k2, vs2) :: rest =>
    if k2 == k then (k2, dedupFirst (vs2 ++ vs)) :: rest
    else (k2, vs2) :: annUpsert k vs rest

/-- Modelled from the spec: merge the annotations of a list of proposals —
key-wise union of the value lists, deduplicated. -/
def mergeAnnotations (ps : List Proposal) : List (String × List String) :=
  ps.foldl (fun acc p => p.annotations.foldl (fun acc kv => annUpsert kv.1 kv.2 acc) acc) []

/-- Modelled from the spec (approval state machine, absent from the
snapshot): admission of one proposal.  A terminal request rejects the
proposal with a state conflict; a self-approval and a proposer whose
approve-authority does not cover the proposed subset are rejected without
mutating the request; an authorized DENY transitions immediately to DENIED;
an authorized APPROVE is appended and, when the tally of its exact
normalized subset reaches the approval threshold, the request transitions to
APPROVED with that subset as the resolved roles and the annotations of the
matching proposals merged. -/
def submitProposal (authority : List String) (req : AccessRequest) (p : Proposal) :
    Except TraceError AccessRequest :=
  if req.state ≠ .pending then
    .error (.badParameter "the access request has already been resolved")
  else if p.author == req.requester then
    .error (.accessDenied "users cannot review their own access requests")
  else if !subsetOf (proposalSubset req.requestedRoles p) authority then
    .error (.accessDenied "the reviewer cannot approve the proposed roles")
  else
    match p.decision with
    | .deny =>
      .ok { req with state := .denied, proposals := req.proposals ++ [p],
                     resolvedAnnotations := mergeAnnotations [p] }
    | .approve =>
      let s := proposalSubset req.requestedRoles p
      let props := req.proposals ++ [p]
      if req.approvalThreshold ≤ tallyCount req.requestedRoles props s then
        .ok { req with state := .approved, proposals := props, resolvedRoles := s,
                       resolvedAnnotations :=
                         mergeAnnotations (props.filter fun q =>
                           q.decision == .approve && proposalSubset req.requestedRoles q == s) }
      else
        .ok { req with proposals := props }

/-- Submit a sequence of proposals; a rejected proposal leaves the request
unchanged, as admission failures never mutate the request. -/
def submitAll (authority : List String) (req : AccessRequest) (ps : List Proposal) : AccessRequest :=
  ps.foldl (fun r p => match submitProposal authority r p with
    | .ok r2 => r2
    | .error _ => r) req

/-- The request of the design document's vote-splitting scenario: dave
requests three roles under a threshold of two approvals. -/
def daveRequest : AccessRequest :=
  { requester := "dave", requestedRoles := ["foo", "bar", "bin"], approvalThreshold := 2 }

/-- Recognizer for bad-parameter (validation) errors lifted to results. -/
def isBadParameterRes (r : Except TraceError α) : Bool :=
  match r with
  | .error (.badParameter _) => true
  | _ => false

/-- Test fixture: the role of the deny-overrides-allow test case, allowing
and denying creation of SSH sessions in the default namespace. -/
def denyAllowRole : RoleV3 :=
  { Name := "name1",
    Allow := { Namespaces := ["default"], Rules := [{ Resources := ["ssh_session"], Verbs := ["create"] }] },
    Deny := { Namespaces := ["default"], Rules := [{ Resources := ["ssh_session"], Verbs := ["create"] }] } }

/-- A role whose node-label selector, namespaces and logins are all wildcard
or the given login: access to servers is constrained by nothing but the
label selector. -/
def wildcardNodeRole (login : String) : RoleV3 :=
  { Allow := { Namespaces := [Wildcard], Logins := [login], NodeLabels := [(Wildcard, [Wildcard])] } }

/-- A role with a wildcard kubernetes-label selector in every namespace. -/
def wildcardKubeRole : RoleV3 :=
  { Allow := { Namespaces := [Wildcard], KubernetesLabels := [(Wildcard, [Wildcard])] } }

/-- A role with a wildcard database-label selector in every namespace. -/
def wildcardDbRole : RoleV3 :=
  { Allow := { Namespaces := [Wildcard], DatabaseLabels := [(Wildcard, [Wildcard])] } }

/-- A role with a wildcard cluster-label selector. -/
def wildcardClusterRole : RoleV3 :=
  { Allow := { Namespaces := ["default"], ClusterLabels := [(Wildcard, [Wildcard])] } }

/-- A role mapping one concrete node-label key to an empty pattern list. -/
def emptyListNodeRole (key login : String) : RoleV3 :=
  { Allow := { Namespaces := [Wildcard], Logins := [login], NodeLabels := [(key, [])] } }

/-- A role mapping one concrete cluster-label key to an empty pattern
list. -/
def emptyListClusterRole (key : String) : RoleV3 :=
  { Allow := { Namespaces := ["default"], Logins := ["admin"], ClusterLabels := [(key, [])] } }

/-- Test fixture: the role of the more-specific-rule-wins test case — a
wildcard catch-all rule next to a narrower rule carrying a `where` clause
and a log action. -/
def moreSpecificRole : RoleV3 :=
  { Name := "name1",
    Allow := { Namespaces := ["default"],
               Rules := [{ Resources := [Wildcard], Verbs := [Wildcard] },
                         { Resources := ["role"], Verbs := ["read"],
                           Where := some { fn := "equals", field := "team", value := "dev" },
                           Actions := [{ fn := "log", args := ["info", "matched more specific rule"] }] }] } }

/-- Test fixture: a context whose resource carries the team=dev label. -/
def devTeamCtx : Context := { resourceLabels := [("team", "dev")] }

/-- Test fixture: a role whose rule's `where` clause calls the unsupported
function `containz`. -/
def containzRule : Rule :=
  { Resources := ["role"], Verbs := ["read", "list"],
    Where := some { fn := "containz", field := "groups", value := "prod" } }

/-- Test fixture: the role carrying `containzRule`. -/
def containzRole : RoleV3 :=
  { Name := "name1", Allow := { Logins := ["user"], Rules := [containzRule] } }

/-- Test fixture: roles carrying the limit values of the limits test. -/
def limitRoles : RoleSet :=
  [8, 6, 7, 5, 3, 0, 9].map fun v => { Options := { MaxConnections := v, MaxSessions := v } }

/-- The state of a successful proposal admission's resulting request. -/
def requestStateRes (r : Except TraceError AccessRequest) : Option RequestState :=
  match r with
  | .ok req => some req.state
  | .error _ => none

/-- The resolved roles of a successful proposal admission's resulting
request. -/
def resolvedRolesRes (r : Except TraceError AccessRequest) : Option (List String) :=
  match r with
  | .ok req => some req.resolvedRoles
  | .error _ => none

-- Regression checks against the label-matching test cases of the snapshot.
example : MatchLabels [("role", ["worker2", "worker"])] [("role", "worker"), ("status", "follower")] = true := by decide

example : MatchLabels [("role", ["worker2", "worker"])] [] = false := by decide

example : MatchLabels [(Wildcard, [Wildcard])] [] = true := by decide

example : MatchLabels [(Wildcard, [Wildcard])] [("role", "db")] = true := by decide

example : MatchLabels [("role", [])] [] = false := by decide

example : MatchLabels [("role", [])] [("role", "worker")] = false := by decide

example : MatchLabels [("role", ["^db(.*)$"]), ("status", ["follow*"])] [("role", "db"), ("status", "follower")] = false ∨
    MatchLabels [("status", ["follow*"])] [("status", "follower")] = true := by
  right; decide

example : MatchLabels [] [] = false := by decide

example : MatchLabels [] [("a", "b")] = false := by decide

-- Regression checks against the rule-evaluation test cases of the snapshot.
example :   -- empty role set has access to nothing
    isAccessDeniedRes (checkAccessToRule [] {} "default" "user" "write") = true := by decide

example :   -- user can read but not list sessions in the default namespace
    checkAccessToRule
      [{ Allow := { Namespaces := ["default"], Rules := [{ Resources := ["ssh_session"], Verbs := ["read"] }] } }]
      {} "default" "ssh_session" "read" = .ok [] := by decide

example :
    isAccessDeniedRes (checkAccessToRule
      [{ Allow := { Namespaces := ["default"], Rules := [{ Resources := ["ssh_session"], Verbs := ["read"] }] } }]
      {} "default" "ssh_session" "list") = true := by decide

example :   -- deny rules override allow rules
    isAccessDeniedRes (checkAccessToRule
      [{ Allow := { Namespaces := ["default"], Rules := [{ Resources := ["ssh_session"], Verbs := ["create"] }] },
         Deny := { Namespaces := ["default"], Rules := [{ Resources := ["ssh_session"], Verbs := ["create"] }] } }]
      {} "default" "ssh_session" "create") = true := by decide

example :   -- user can read sessions if a trait matches
    checkAccessToRule
      [{ Allow := { Namespaces := ["default"],
                    Rules := [{ Resources := ["session"], Verbs := ["read"],
                                Where := some { fn := "contains", field := "group", value := "prod" },
                                Actions := [{ fn := "log", args := ["info", "matched"] }] }] } }]
      { userName := "bob", userTraits := [("group", ["dev", "prod"])] }
      "default" "session" "read" = .ok [{ fn := "log", args := ["info", "matched"] }] := by decide

example :
    isAccessDeniedRes (checkAccessToRule
      [{ Allow := { Namespaces := ["default"],
                    Rules := [{ Resources := ["session"], Verbs := ["read"],
                                Where := some { fn := "contains", field := "group", value := "prod" },
                                Actions := [{ fn := "log", args := ["info", "matched"] }] }] } }]
      { userTraits := [("group", ["dev"])] }
      "default" "session" "read") = true := by decide

example :   -- rule with a where section sorts as more specific
    MakeRuleSet
      [{ Resources := ["user"], Verbs := ["create"] },
       { Resources := ["user"], Verbs := ["create"],
         Where := some { fn := "contains", field := "groups", value := "prod" } }] =
    [("user",
      [{ Resources := ["user"], Verbs := ["create"],
         Where := some { fn := "contains", field := "groups", value := "prod" } },
       { Resources := ["user"], Verbs := ["create"] }])] := by decide

example :   -- rule with actions sorts as more specific than where alone
    MakeRuleSet
      [{ Resources := ["user"], Verbs := ["create"],
         Where := some { fn := "contains", field := "groups", value := "prod" } },
       { Resources := ["user"], Verbs := ["create"],
         Where := some { fn := "contains", field := "groups", value := "prod" },
         Actions := [{ fn := "log", args := ["info", "log entry"] }] }] =
    [("user",
      [{ Resources := ["user"], Verbs := ["create"],
         Where := some { fn := "contains", field := "groups", value := "prod" },
         Actions := [{ fn := "log", args := ["info", "log entry"] }] },
       { Resources := ["user"], Verbs := ["create"],
         Where := some { fn := "contains", field := "groups", value := "prod" } }])] := by decide

example :   -- the more specific rule wins and its actions are the side effect
    checkAccessToRule
      [{ Allow := { Namespaces := ["default"],
                    Rules := [{ Resources := [Wildcard], Verbs := [Wildcard] },
                              { Resources := ["role"], Verbs := ["read"],
                                Where := some { fn := "equals", field := "team", value := "dev" },
                                Actions := [{ fn := "log", args := ["info", "matched more specific rule"] }] }] } }]
      { resourceLabels := [("team", "dev")] }
      "default" "role" "read" = .ok [{ fn := "log", args := ["info", "matched more specific rule"] }] := by decide

-- Regression checks against the connection/session-limit test cases.
example : resolveLimit [8, 6, 7, 5, 3, 0, 9] = 3 := by decide

example : resolveLimit [5, 6, 7, 8] = 5 := by decide

example : resolveLimit [0, 0, 0, 0, 0, 0, 0] = 0 := by decide

-- Regression checks against the database names/users test cases.
example : checkDatabaseNamesAndUsers [roleDbA] 1 false = .ok (["postgres", "main"], ["postgres", "alice"]) := by decide

example : checkDatabaseNamesAndUsers [roleDbA, roleDbB] 1 false = .ok (["main", "metrics"], ["alice", "bob"]) := by decide

example : isAccessDeniedRes (checkDatabaseNamesAndUsers [roleDbA] 5 false) = true := by decide

example : isNotFoundRes (checkDatabaseNamesAndUsers [roleDbEmpty] 1 false) = true := by decide

-- Regression checks against the role-validation test cases.
example : ValidateRole
    { Name := "name1",
      Allow := { Logins := ["user"],
                 Rules := [{ Resources := ["role"], Verbs := ["read", "list"],
                             Where := some { fn := "containz", field := "groups", value := "prod" } }] } } =
    .error (.badParameter "unsupported function: containz") := by decide

example : ValidateRole
    { Name := "name1",
      Allow := { Logins := ["user"],
                 Rules := [{ Resources := ["role"], Verbs := ["read", "list"],
                             Where := some { fn := "contains", field := "groups", value := "prod" },
                             Actions := [{ fn := "zzz", args := ["info", "log entry"] }] }] } } =
    .error (.badParameter "unsupported function: zzz") := by decide

example : ValidateRole
    { Name := "name1",
      Allow := { Logins := ["user"],
                 Rules := [{ Resources := ["role"], Verbs := ["read", "list"],
                             Where := some { fn := "contains", field := "groups", value := "prod" },
                             Actions := [{ fn := "log", args := ["info", "log entry"] }] }] } } = .ok () := by decide

-- Regression checks against the trait-interpolation test cases.
example :   -- logins substitute in allow rule
    expandField [("foo", ["bar"])] true [.traitVar "external" "foo", .literal "root"] = ["bar", "root"] := by decide

example :   -- logins substitute with function
    expandField [("foo", ["Bar <bar@example.com>"])] true [.emailLocal "external" "foo", .literal "root"] =
      ["bar", "root"] := by decide

example :   -- missing external var in database names is dropped
    expandField [("foo", ["bar"])] false
      [.traitVar "external" "foo", .traitVar "external" "baz", .literal "postgres"] =
      ["bar", "postgres"] := by decide

example :   -- internal vars expand, unknown internal names are dropped
    expandField [("db_names", ["db1", "db2"]), ("db_users", ["alice"])] false
      [.traitVar "internal" "db_names", .traitVar "internal" "foo", .literal "postgres"] =
      ["db1", "db2", "postgres"] := by decide

example :   -- malformed entries are dropped
    expandField [("foo", ["bar"])] true [.malformed "external.foo"] = [] := by decide

example :   -- variable in logins, none in traits
    expandField [("foo", ["bar"])] true [.traitVar "internal" "bar", .literal "root"] = ["root"] := by decide

example :   -- multiple trait values each produce an output
    expandField [("logins", ["bar", "baz"])] true [.traitVar "internal" "logins", .literal "root"] =
      ["bar", "baz", "root"] := by decide

example :   -- deduplicate
    expandField [("foo", ["bar"])] true [.traitVar "external" "foo", .literal "bar"] = ["bar"] := by decide

example :   -- invalid unix login filtered
    expandField [("foo", ["-foo"])] true [.traitVar "external" "foo", .literal "bar"] = ["bar"] := by decide

example :   -- label substitution
    expandLabels [("foo", ["bar"]), ("hello", ["there"])]
      [(.traitVar "external" "foo", [.traitVar "external" "hello"])] = [("bar", ["there"])] := by decide

example :   -- missing node variables are set to empty during substitution
    expandLabels [("foo", ["bar"])]
      [(.traitVar "external" "foo", [.literal "value"]),
       (.traitVar "external" "missing", [.literal "missing"]),
       (.literal "missing", [.traitVar "external" "missing", .literal "othervalue"])] =
      [("bar", ["value"]), ("", ["missing"]), ("missing", ["", "othervalue"])] := by decide

example :   -- the first variable value is picked for label keys
    expandLabels [("foo", ["bar", "baz"])] [(.traitVar "external" "foo", [.literal "value"])] =
      [("bar", ["value"])] := by decide

example :   -- all values are expanded for label values
    expandLabels [("foo", ["bar", "baz"])] [(.literal "key", [.traitVar "external" "foo"])] =
      [("key", ["bar", "baz"])] := by decide

-- Regression checks against the design document's tally scenarios.
example :   -- three approvals for three distinct subsets stay PENDING
    (submitAll ["foo", "bar", "bin"] daveRequest
      [{ author := "bob", decision := .approve, roleSubset := some ["foo", "bar"] },
       { author := "alice", decision := .approve, roleSubset := some ["bar", "bin"] },
       { author := "carol", decision := .approve }]).state = .pending := by decide

example :   -- a duplicate of bob's exact subset reaches the threshold
    (submitAll ["foo", "bar", "bin"] daveRequest
      [{ author := "bob", decision := .approve, roleSubset := some ["foo", "bar"] },
       { author := "alice", decision := .approve, roleSubset := some ["bar", "bin"] },
       { author := "carol", decision := .approve },
       { author := "dana", decision := .approve, roleSubset := some ["bar", "foo"] }]).state
      = .approved := by decide

example :
    (submitAll ["foo", "bar", "bin"] daveRequest
      [{ author := "bob", decision := .approve, roleSubset := some ["foo", "bar"] },
       { author := "dana", decision := .approve, roleSubset := some ["bar", "foo"] }]).resolvedRoles
      = ["bar", "foo"] := by decide

example :   -- self-approval is rejected and does not mutate the request
    submitProposal ["foo", "bar", "bin"] daveRequest
      { author := "dave", decision := .approve } =
      .error (.accessDenied "users cannot review their own access requests") := by decide

example :   -- one authorized denial is always sufficient
    (submitAll ["foo", "bar", "bin"] daveRequest
      [{ author := "bob", decision := .deny }]).state = .denied := by decide

example :   -- a terminal request rejects further proposals with a state error
    submitProposal ["foo", "bar", "bin"] { daveRequest with state := .denied }
      { author := "bob", decision := .approve } =
      .error (.badParameter "the access request has already been resolved") := by decide

-- Regression checks against the server and remote-cluster access tests.
example :   -- role limited to the default namespace, wildcard node labels
    checkAccessToServer
      [{ Allow := { Namespaces := ["default"], Logins := ["admin"], NodeLabels := [(Wildcard, [Wildcard])] } }]
      "admin" { Name := "a" } = .ok () := by decide

example :
    isAccessDeniedRes (checkAccessToServer
      [{ Allow := { Namespaces := ["default"], Logins := ["admin"], NodeLabels := [(Wildcard, [Wildcard])] } }]
      "root" { Name := "a" }) = true := by decide

example :
    isAccessDeniedRes (checkAccessToServer
      [{ Allow := { Namespaces := ["default"], Logins := ["admin"], NodeLabels := [(Wildcard, [Wildcard])] } }]
      "admin" { Name := "c", Namespace := "namespace-c", Labels := [("role", "db"), ("status", "follower")] }) = true := by decide

example :   -- role limited to labels in the default namespace
    checkAccessToServer
      [{ Allow := { Namespaces := ["default"], Logins := ["admin"], NodeLabels := [("role", ["worker"])] } }]
      "admin" { Name := "b", Namespace := "default", Labels := [("role", "worker"), ("status", "follower")] } = .ok () := by decide

example :
    isAccessDeniedRes (checkAccessToServer
      [{ Allow := { Namespaces := ["default"], Logins := ["admin"], NodeLabels := [("role", ["worker"])] } }]
      "admin" { Name := "a" }) = true := by decide

example :   -- remote cluster: wildcard matches anything
    checkAccessToRemoteCluster
      [{ Allow := { Namespaces := ["default"], Logins := ["admin"], ClusterLabels := [(Wildcard, [Wildcard])] } }]
      [("role", "db"), ("status", "follower")] = .ok () := by decide

example :   -- role with no labels matches clusters with no labels, but no others
    checkAccessToRemoteCluster [{ Allow := { Namespaces := ["default"] } }] [] = .ok () := by decide

example :
    isAccessDeniedRes (checkAccessToRemoteCluster [{ Allow := { Namespaces := ["default"] } }]
      [("role", "worker"), ("status", "follower")]) = true := by decide

example :   -- any role in the set with labels makes the set match labels
    isAccessDeniedRes (checkAccessToRemoteCluster
      [{ Allow := { Namespaces := ["default"], ClusterLabels := [("role", ["worker"])] } },
       { Allow := { Namespaces := ["default"] } }] []) = true := by decide

example :
    checkAccessToRemoteCluster
      [{ Allow := { Namespaces := ["default"], ClusterLabels := [("role", ["worker"])] } },
       { Allow := { Namespaces := ["default"] } }] [("role", "worker"), ("status", "follower")] = .ok () := by decide

example :   -- cluster_labels with empty list value matches nothing
    isAccessDeniedRes (checkAccessToRemoteCluster
      [{ Allow := { Namespaces := ["default"], Logins := ["admin"], ClusterLabels := [("role", [])] } }] []) = true := by decide

example :   -- kubernetes: role with no labels has access to nothing
    isAccessDeniedRes (checkAccessToKubernetes [{ Allow := { Namespaces := ["default"] } }] "default" []) = true := by decide

example :   -- kubernetes: wildcard role matches a cluster without labels
    checkAccessToKubernetes
      [{ Allow := { Namespaces := ["default"], KubernetesLabels := [(Wildcard, [Wildcard])] } }] "default" [] = .ok () := by decide

/-- The wildcard selector matches every label assignment, including the
empty one. -/
theorem MatchLabels_wildcard (labels : LabelValues) :
    MatchLabels [(Wildcard, [Wildcard])] labels = true := rfl

/-- The empty selector matches nothing. -/
theorem MatchLabels_nil (labels : LabelValues) : MatchLabels [] labels = false := rfl

/-- A wildcard namespace selector matches every namespace. -/
theorem matchNamespace_wildcard (ns : String) : matchNamespace [Wildcard] ns = true := by
  simp [matchNamespace]

/-- A selector with an empty pattern list for a key matches nothing: a
resource without the key fails the key-presence check, and a resource with
the key has no pattern to satisfy. -/
theorem MatchLabels_empty_pattern (key : String) (labels : LabelValues) :
    MatchLabels [(key, [])] labels = false := by
  unfold MatchLabels
  cases hw : (Wildcard == key) with
  | false =>
    cases h2 : labels.lookup key <;> simp [List.lookup, hw, h2]
  | true =>
    cases h2 : labels.lookup key <;> simp [List.lookup, hw, h2]

/-- Claim C1: for every role set and every (namespace, resource-kind, verb)
query for which at least one role's Deny rules match and at least one role's
Allow rules also match, the rule-access check returns an AccessDenied error:
a matching Deny rule overrides any matching Allow rule regardless of
specificity. -/
theorem checkAccessToRule_deny_overrides_allow
    (set : RoleSet) (ctx : Context) (ns kind verb : String)
    (hdeny : ∃ role ∈ set, roleDenyMatches ctx ns kind verb role = true)
    (hallow : ∃ role ∈ set, (roleAllowMatches ctx ns kind verb role).isSome = true) :
    isAccessDeniedRes (checkAccessToRule set ctx ns kind verb) = true := by
  obtain ⟨r, hr, hd⟩ := hdeny
  have hany : set.any (roleDenyMatches ctx ns kind verb) = true :=
    List.any_eq_true.mpr ⟨r, hr, hd⟩
  simp [checkAccessToRule, hany, isAccessDeniedRes, TraceError.isAccessDenied]

/-- Witness for C1 at the deny-overrides-allow test fixture. -/
theorem checkAccessToRule_deny_overrides_allow_witness :
    isAccessDeniedRes (checkAccessToRule [denyAllowRole] {} "default" "ssh_session" "create") = true :=
  checkAccessToRule_deny_overrides_allow [denyAllowRole] {} "default" "ssh_session" "create"
    ⟨denyAllowRole, by decide, by decide⟩ ⟨denyAllowRole, by decide, by decide⟩

/-- Claim C5: a role whose label selector for a resource class is exactly
the wildcard key mapped to the wildcard pattern matches every resource of
that class — any label assignment, including zero labels — for servers,
databases, Kubernetes clusters and remote clusters alike. -/
theorem wildcard_selector_matches_everything :
    ∀ (labels : LabelValues) (ns login : String),
      MatchLabels [(Wildcard, [Wildcard])] labels = true ∧
      checkAccessToServer [wildcardNodeRole login] login { Namespace := ns, Labels := labels } = .ok () ∧
      checkAccessToKubernetes [wildcardKubeRole] ns labels = .ok () ∧
      checkAccessToDatabaseServer [wildcardDbRole] ns labels = .ok () ∧
      checkAccessToRemoteCluster [wildcardClusterRole] labels = .ok () := by
  intro labels ns login
  refine ⟨rfl, ?_, ?_, ?_, rfl⟩
  · simp [checkAccessToServer, wildcardNodeRole, matchNamespace_wildcard, MatchLabels_wildcard,
      MatchLabels_nil, matchNamespace]
  · simp [checkAccessToKubernetes, wildcardKubeRole, matchNamespace_wildcard, MatchLabels_wildcard,
      MatchLabels_nil, matchNamespace]
  · simp [checkAccessToDatabaseServer, wildcardDbRole, matchNamespace_wildcard, MatchLabels_wildcard,
      MatchLabels_nil, matchNamespace]

/-- Claim C6: a role whose label selector maps some key to an empty pattern
list matches no resource, even one with no labels at all — the empty list is
an explicit lock-out, and the corresponding access checks return
AccessDenied under such a role alone. -/
theorem empty_pattern_list_locks_out :
    ∀ (key login ns : String) (labels : LabelValues),
      MatchLabels [(key, [])] labels = false ∧
      isAccessDeniedRes (checkAccessToServer [emptyListNodeRole key login] login
        { Namespace := ns, Labels := labels }) = true ∧
      isAccessDeniedRes (checkAccessToRemoteCluster [emptyListClusterRole key] labels) = true := by
  intro key login ns labels
  refine ⟨MatchLabels_empty_pattern key labels, ?_, ?_⟩
  · simp [checkAccessToServer, emptyListNodeRole, MatchLabels_empty_pattern, MatchLabels_nil,
      matchNamespace, isAccessDeniedRes, TraceError.isAccessDenied]
  · simp [checkAccessToRemoteCluster, emptyListClusterRole, roleSetUsesClusterLabels,
      MatchLabels_empty_pattern, MatchLabels_nil, isAccessDeniedRes, TraceError.isAccessDenied]

/-- Claim C10: a role whose allow block has no cluster-label selector at all
(and no deny selector) grants access exactly to the remote clusters that
themselves carry zero labels: an unlabeled cluster is allowed, a cluster
with any label is denied. -/
theorem no_labels_role_matches_only_unlabeled_clusters
    (role : RoleV3) (labels : LabelValues)
    (hA : role.Allow.ClusterLabels = []) (hD : role.Deny.ClusterLabels = []) :
    (checkAccessToRemoteCluster [role] labels = .ok () ↔ labels = []) ∧
    (labels ≠ [] → isAccessDeniedRes (checkAccessToRemoteCluster [role] labels) = true) := by
  have huse : roleSetUsesClusterLabels [role] = false := by
    simp [roleSetUsesClusterLabels, hA, hD]
  cases labels with
  | nil =>
    refine ⟨?_, ?_⟩
    · simp [checkAccessToRemoteCluster, huse]
    · intro h; exact absurd rfl h
  | cons kv rest =>
    refine ⟨?_, ?_⟩
    · constructor
      · intro h
        exfalso
        simp [checkAccessToRemoteCluster, huse, hA, hD, MatchLabels_nil] at h
      · intro h; exact absurd h (by simp)
    · intro _
      simp [checkAccessToRemoteCluster, huse, hA, hD, MatchLabels_nil, isAccessDeniedRes,
        TraceError.isAccessDenied]

/-- Witness for C10 at the no-labels test fixture: the unlabeled cluster is
allowed under the label-free role. -/
theorem no_labels_role_matches_only_unlabeled_clusters_witness :
    (checkAccessToRemoteCluster [{ Allow := { Namespaces := ["default"] } }] [] = .ok () ↔
      ([] : LabelValues) = []) ∧
    (([] : LabelValues) ≠ [] →
      isAccessDeniedRes (checkAccessToRemoteCluster [{ Allow := { Namespaces := ["default"] } }] []) = true) :=
  no_labels_role_matches_only_unlabeled_clusters { Allow := { Namespaces := ["default"] } } [] rfl rfl

/-- Elements of a filtered list are pairwise related whenever the filter
predicate forces the relation. -/
theorem pairwise_of_filter {α : Type} {p : α → Bool} {R : α → α → Prop}
    (h : ∀ a b, p a = true → p b = true → R a b) :
    ∀ l : List α, List.Pairwise R (l.filter p)
  | [] => by simp
  | x :: xs => by
    by_cases hx : p x = true
    · rw [List.filter_cons_of_pos hx]
      exact List.Pairwise.cons (fun b hb => h x b hx (List.of_mem_filter hb))
        (pairwise_of_filter h xs)
    · rw [List.filter_cons_of_neg (by simpa using hx)]
      exact pairwise_of_filter h xs

/-- The specificity buckets of `sortRules` are in descending score order. -/
theorem sortRules_sorted (l : List Rule) :
    List.Pairwise (fun a b => ruleScore b ≤ ruleScore a) (sortRules l) := by
  have hmem : ∀ (i : Nat) (r : Rule), r ∈ l.filter (fun r2 => ruleScore r2 == i) → ruleScore r = i := by
    intro i r hr
    simpa using List.of_mem_filter hr
  have hpair : ∀ i : Nat, List.Pairwise (fun a b => ruleScore b ≤ ruleScore a)
      (l.filter (fun r2 => ruleScore r2 == i)) := by
    intro i
    apply pairwise_of_filter
    intro a b ha hb
    have ha2 : ruleScore a = i := by simpa using ha
    have hb2 : ruleScore b = i := by simpa using hb
    omega
  unfold sortRules
  rw [List.append_assoc, List.append_assoc]
  refine List.pairwise_append.mpr ⟨hpair 3,
    List.pairwise_append.mpr ⟨hpair 2,
      List.pairwise_append.mpr ⟨hpair 1, hpair 0, ?_⟩, ?_⟩, ?_⟩
  · intro a ha b hb
    have h1 := hmem 1 a ha
    have h0 := hmem 0 b hb
    omega
  · intro a ha b hb
    have h2 := hmem 2 a ha
    rcases List.mem_append.mp hb with hb1 | hb0
    · have := hmem 1 b hb1; omega
    · have := hmem 0 b hb0; omega
  · intro a ha b hb
    have h3 := hmem 3 a ha
    rcases List.mem_append.mp hb with hb2 | hb10
    · have := hmem 2 b hb2; omega
    · rcases List.mem_append.mp hb10 with hb1 | hb0
      · have := hmem 1 b hb1; omega
      · have := hmem 0 b hb0; omega

/-- Looking a key up after mapping a function over the values commutes. -/
theorem lookup_map_values {β γ : Type} (f : β → γ) (kind : String) :
    ∀ l : List (String × β),
      (l.map fun kv => (kv.1, f kv.2)).lookup kind = (l.lookup kind).map f
  | [] => rfl
  | (k, v) :: rest => by
    by_cases h : (kind == k) = true
    · simp [List.lookup, h]
    · have h2 : (kind == k) = false := by simpa using h
      simp [List.lookup, h2, lookup_map_values f kind rest]

/-- Every bucket of a built rule set is sorted most-specific first. -/
theorem rulesFor_MakeRuleSet_sorted (rules : List Rule) (kind : String) :
    List.Pairwise (fun a b => ruleScore b ≤ ruleScore a) (rulesFor (MakeRuleSet rules) kind) := by
  unfold rulesFor MakeRuleSet
  rw [lookup_map_values sortRules kind]
  cases (rules.foldl (fun rs r => r.Resources.foldl (fun rs2 k => insertRule k r rs2) rs) []).lookup kind with
  | none => simp
  | some l => simpa using sortRules_sorted l

/-- Claim C4: rule sets order matching Allow rules most-specific first — a
rule with both a `where` clause and actions sorts before a rule with only a
`where` clause, which sorts before a rule with neither — and the deciding
rule of a rule-access check is the first match in that order, whose actions
(here a log statement) are the observable side effect of the grant. -/
theorem MakeRuleSet_most_specific_first :
    (∀ (rules : List Rule) (kind : String),
      List.Pairwise (fun a b => ruleScore b ≤ ruleScore a) (rulesFor (MakeRuleSet rules) kind)) ∧
    (∀ r r2 : Rule, r.Where.isSome = true → r.Actions.isEmpty = false →
      r2.Actions.isEmpty = true → ruleScore r2 < ruleScore r) ∧
    (∀ r r2 : Rule, r.Where.isSome = true → r2.Where.isSome = false →
      r2.Actions.isEmpty = true → ruleScore r2 < ruleScore r) ∧
    checkAccessToRule [moreSpecificRole] devTeamCtx "default" "role" "read" =
      .ok [{ fn := "log", args := ["info", "matched more specific rule"] }] := by
  refine ⟨rulesFor_MakeRuleSet_sorted, ?_, ?_, by decide⟩
  · intro r r2 hw ha ha2
    simp only [ruleScore, hw, ha, ha2, if_true, if_false]
    cases h : r2.Where.isSome <;> simp [h]
  · intro r r2 hw hw2 ha2
    simp only [ruleScore, hw, hw2, ha2, if_true, if_false]
    cases h : r.Actions.isEmpty <;> simp [h]

/-- Witness for C4 at the rule-sorting test fixture: the rule with both a
where clause and an action outranks the rule with only the where clause. -/
theorem MakeRuleSet_most_specific_first_witness :
    ruleScore { Resources := ["user"], Verbs := ["create"],
                Where := some { fn := "contains", field := "groups", value := "prod" } } <
      ruleScore { Resources := ["user"], Verbs := ["create"],
                  Where := some { fn := "contains", field := "groups", value := "prod" },
                  Actions := [{ fn := "log", args := ["info", "log entry"] }] } :=
  MakeRuleSet_most_specific_first.2.1 _ _ rfl rfl rfl

/-- A list whose member hits with `findSome?` yields a hit. -/
theorem findSome?_isSome_of_mem {α β : Type} {f : α → Option β} {l : List α} {a : α}
    (ha : a ∈ l) (hf : (f a).isSome = true) : (l.findSome? f).isSome = true := by
  induction l with
  | nil => cases ha
  | cons x xs ih =>
    rw [List.findSome?_cons]
    cases hx : f x with
    | some b => simp
    | none =>
      rcases List.mem_cons.mp ha with h | h
      · subst h; rw [hx] at hf; simp at hf
      · simpa using ih h

/-- Claim C7: a role containing a rule whose where clause or actions
reference a function outside the closed supported-function registry fails
validation with a BadParameter error at role-load time, so the role is never
loaded with the unsupported expression degraded to a runtime decision. -/
theorem ValidateRole_rejects_unsupported_functions
    (r : RoleV3)
    (h : ∃ rule ∈ r.Allow.Rules ++ r.Deny.Rules,
        (∃ w, rule.Where = some w ∧ w.fn ∉ supportedWhereFunctions) ∨
        (∃ a ∈ rule.Actions, a.fn ∉ supportedActionFunctions)) :
    isBadParameterRes (ValidateRole r) = true := by
  obtain ⟨rule, hmem, hcase⟩ := h
  have hact : ∀ a ∈ rule.Actions, a.fn ∉ supportedActionFunctions →
      (actionsUnsupportedFunction rule).isSome = true := by
    intro a ha hfn
    apply findSome?_isSome_of_mem ha
    simp [hfn]
  have hsome : (Rule.unsupportedFunction rule).isSome = true := by
    rcases hcase with ⟨w, hw, hfn⟩ | ⟨a, ha, hfn⟩
    · unfold Rule.unsupportedFunction
      rw [hw]
      simp [hfn]
    · unfold Rule.unsupportedFunction
      cases hw : rule.Where with
      | none => exact hact a ha hfn
      | some w =>
        by_cases hm : w.fn ∈ supportedWhereFunctions
        · have hcontains : supportedWhereFunctions.contains w.fn = true := by simpa using hm
          show (if supportedWhereFunctions.contains w.fn = true then actionsUnsupportedFunction rule
                else some w.fn).isSome = true
          rw [if_pos hcontains]
          exact hact a ha hfn
        · simp [hm]
  have hfind := findSome?_isSome_of_mem hmem hsome
  unfold ValidateRole
  cases hf : (r.Allow.Rules ++ r.Deny.Rules).findSome? Rule.unsupportedFunction with
  | none => rw [hf] at hfind; simp at hfind
  | some fn => simp [isBadParameterRes]

/-- Witness for C7 at the unsupported-function test fixture. -/
theorem ValidateRole_rejects_unsupported_functions_witness :
    isBadParameterRes (ValidateRole containzRole) = true :=
  ValidateRole_rejects_unsupported_functions containzRole
    ⟨containzRule, by decide, Or.inl ⟨{ fn := "containz", field := "groups", value := "prod" }, rfl, by decide⟩⟩

/-- The limit fold keeps the smallest nonzero value seen so far: it returns
the accumulator untouched when no nonzero value follows, never increases a
set accumulator, and lands on a member of the nonzero values bounding them
all from below. -/
theorem limitFold_spec : ∀ (l : List Nat) (acc : Nat),
    (nonzeroVals l = [] → l.foldl limitStep acc = acc) ∧
    (acc ≠ 0 → l.foldl limitStep acc ∈ acc :: nonzeroVals l ∧ l.foldl limitStep acc ≤ acc ∧
      ∀ v ∈ nonzeroVals l, l.foldl limitStep acc ≤ v) ∧
    (acc = 0 → nonzeroVals l ≠ [] → l.foldl limitStep acc ∈ nonzeroVals l ∧
      ∀ v ∈ nonzeroVals l, l.foldl limitStep acc ≤ v)
  | [], acc => by
    refine ⟨fun _ => rfl, fun hacc => ⟨?_, Nat.le_refl acc, by simp [nonzeroVals]⟩,
      fun h0 hne => absurd rfl hne⟩
    simp
  | x :: xs, acc => by
    have ih := limitFold_spec xs
    by_cases hx : x = 0
    · subst hx
      have hstep : limitStep acc 0 = acc := by simp [limitStep]
      have hnz : nonzeroVals (0 :: xs) = nonzeroVals xs := by simp [nonzeroVals]
      rw [List.foldl_cons, hstep, hnz]
      exact ih acc
    · have hnz : nonzeroVals (x :: xs) = x :: nonzeroVals xs := by simp [nonzeroVals, hx]
      rw [List.foldl_cons, hnz]
      by_cases hacc : acc = 0
      · subst hacc
        have hstep : limitStep 0 x = x := by simp [limitStep, hx]
        rw [hstep]
        obtain ⟨hmem, hle, hall⟩ := (ih x).2.1 hx
        refine ⟨fun h => ?_, fun hacc0 => absurd rfl hacc0, fun _ _ => ⟨hmem, ?_⟩⟩
        · exact absurd h (by simp)
        · intro v hv
          rcases List.mem_cons.mp hv with rfl | hv2
          · exact hle
          · exact hall v hv2
      · by_cases hlt : x < acc
        · have hstep : limitStep acc x = x := by simp [limitStep, hx, hlt]
          rw [hstep]
          obtain ⟨hmem, hle, hall⟩ := (ih x).2.1 hx
          refine ⟨fun h => absurd h (by simp), fun _ => ⟨?_, ?_, ?_⟩, fun h0 => absurd h0 hacc⟩
          · rcases List.mem_cons.mp hmem with heq | hm2
            · rw [heq]; exact List.mem_cons_of_mem _ (List.mem_cons_self _ _)
            · exact List.mem_cons_of_mem _ (List.mem_cons_of_mem _ hm2)
          · exact Nat.le_trans hle (Nat.le_of_lt hlt)
          · intro v hv
            rcases List.mem_cons.mp hv with rfl | hv2
            · exact hle
            · exact hall v hv2
        · have hstep : limitStep acc x = acc := by simp [limitStep, hx, hlt, hacc]
          rw [hstep]
          obtain ⟨hmem, hle, hall⟩ := (ih acc).2.1 hacc
          refine ⟨fun h => absurd h (by simp), fun _ => ⟨?_, hle, ?_⟩, fun h0 => absurd h0 hacc⟩
          · rcases List.mem_cons.mp hmem with heq | hm2
            · rw [heq]; exact List.mem_cons_self _ _
            · exact List.mem_cons_of_mem _ (List.mem_cons_of_mem _ hm2)
          · intro v hv
            rcases List.mem_cons.mp hv with rfl | hv2
            · exact Nat.le_trans hle (Nat.le_of_not_lt hlt)
            · exact hall v hv2

/-- Limit resolution is zero exactly on lists with no nonzero value, and
otherwise picks the minimum nonzero value. -/
theorem resolveLimit_spec (vals : List Nat) :
    (nonzeroVals vals = [] → resolveLimit vals = 0) ∧
    (nonzeroVals vals ≠ [] → resolveLimit vals ∈ nonzeroVals vals ∧
      ∀ v ∈ nonzeroVals vals, resolveLimit vals ≤ v) := by
  have h := limitFold_spec vals 0
  exact ⟨h.1, fun hne => h.2.2 rfl hne⟩

/-- Claim C9: the effective MaxConnections and MaxSessions limits of a role
set equal the minimum of the nonzero per-role limit values across the set —
a per-role limit of zero means unset and is ignored, and when every role's
limit is zero the resulting limit is zero (unlimited), never a
prohibition. -/
theorem roleSet_limits_minimum (set : RoleSet) :
    (nonzeroVals (set.map fun role => role.Options.MaxConnections) = [] →
      RoleSet.MaxConnections set = 0) ∧
    (nonzeroVals (set.map fun role => role.Options.MaxConnections) ≠ [] →
      RoleSet.MaxConnections set ∈ nonzeroVals (set.map fun role => role.Options.MaxConnections) ∧
      ∀ v ∈ nonzeroVals (set.map fun role => role.Options.MaxConnections),
        RoleSet.MaxConnections set ≤ v) ∧
    (nonzeroVals (set.map fun role => role.Options.MaxSessions) = [] →
      RoleSet.MaxSessions set = 0) ∧
    (nonzeroVals (set.map fun role => role.Options.MaxSessions) ≠ [] →
      RoleSet.MaxSessions set ∈ nonzeroVals (set.map fun role => role.Options.MaxSessions) ∧
      ∀ v ∈ nonzeroVals (set.map fun role => role.Options.MaxSessions),
        RoleSet.MaxSessions set ≤ v) := by
  have hc := resolveLimit_spec (set.map fun role => role.Options.MaxConnections)
  have hs := resolveLimit_spec (set.map fun role => role.Options.MaxSessions)
  exact ⟨hc.1, hc.2, hs.1, hs.2⟩

/-- Witness for C9 at the limits test fixture: the resolved limits are
members of the nonzero per-role values. -/
theorem roleSet_limits_minimum_witness :
    RoleSet.MaxConnections limitRoles ∈
      nonzeroVals (limitRoles.map fun role => role.Options.MaxConnections) ∧
    RoleSet.MaxSessions limitRoles ∈
      nonzeroVals (limitRoles.map fun role => role.Options.MaxSessions) :=
  ⟨((roleSet_limits_minimum limitRoles).2.1 (by decide)).1,
   ((roleSet_limits_minimum limitRoles).2.2.2 (by decide)).1⟩

/-- Claim C8: the database names/users enumeration returns AccessDenied
whenever the requested session TTL exceeds every role's max_session_ttl and
the TTL override is not set; it returns a NotFound error — distinct from
AccessDenied — whenever the role set grants no database names or users at
all; and otherwise it returns the union of the allowed names/users minus any
role's denied names/users. -/
theorem checkDatabaseNamesAndUsers_taxonomy (set : RoleSet) (ttl : Nat) (overrideTTL : Bool) :
    (overrideTTL = false → (∀ role ∈ set, role.Options.MaxSessionTTL < ttl) →
      isAccessDeniedRes (checkDatabaseNamesAndUsers set ttl overrideTTL) = true) ∧
    ((∃ role ∈ set, overrideTTL = true ∨ ttl ≤ role.Options.MaxSessionTTL) →
      allowedDatabaseNames set ttl overrideTTL = [] →
      allowedDatabaseUsers set ttl overrideTTL = [] →
      isNotFoundRes (checkDatabaseNamesAndUsers set ttl overrideTTL) = true) ∧
    ((∃ role ∈ set, overrideTTL = true ∨ ttl ≤ role.Options.MaxSessionTTL) →
      ¬(allowedDatabaseNames set ttl overrideTTL = [] ∧
        allowedDatabaseUsers set ttl overrideTTL = []) →
      checkDatabaseNamesAndUsers set ttl overrideTTL =
        .ok ((allowedDatabaseNames set ttl overrideTTL).filter
               (fun n => !(deniedDatabaseNames set).contains n),
             (allowedDatabaseUsers set ttl overrideTTL).filter
               (fun u => !(deniedDatabaseUsers set).contains u))) := by
  refine ⟨?_, ?_, ?_⟩
  · intro hov hall
    have hm : matchedSessionTTL set ttl overrideTTL = false := by
      unfold matchedSessionTTL
      rw [List.any_eq_false]
      intro role hr
      have := hall role hr
      simp [hov]
      omega
    simp [checkDatabaseNamesAndUsers, hm, isAccessDeniedRes, TraceError.isAccessDenied]
  · intro hex hnames husers
    have hm : matchedSessionTTL set ttl overrideTTL = true := by
      unfold matchedSessionTTL
      rw [List.any_eq_true]
      obtain ⟨role, hr, hcond⟩ := hex
      refine ⟨role, hr, ?_⟩
      rcases hcond with h | h <;> simp [h]
    simp [checkDatabaseNamesAndUsers, hm, hnames, husers, isNotFoundRes, TraceError.isNotFound]
  · intro hex hne
    have hm : matchedSessionTTL set ttl overrideTTL = true := by
      unfold matchedSessionTTL
      rw [List.any_eq_true]
      obtain ⟨role, hr, hcond⟩ := hex
      refine ⟨role, hr, ?_⟩
      rcases hcond with h | h <;> simp [h]
    have hfalse : ((allowedDatabaseNames set ttl overrideTTL).isEmpty &&
        (allowedDatabaseUsers set ttl overrideTTL).isEmpty) = false := by
      by_cases hn : allowedDatabaseNames set ttl overrideTTL = []
      · have hu : allowedDatabaseUsers set ttl overrideTTL ≠ [] := fun h => hne ⟨hn, h⟩
        have h2 : (allowedDatabaseUsers set ttl overrideTTL).isEmpty = false := by
          simpa [List.isEmpty_iff] using hu
        simp [h2]
      · have h2 : (allowedDatabaseNames set ttl overrideTTL).isEmpty = false := by
          simpa [List.isEmpty_iff] using hn
        simp [h2]
    simp [checkDatabaseNamesAndUsers, hm, hfalse]

/-- Witness for C8 at the combined-roles test fixture: the union of the
allowed names/users minus the denied ones is returned for an admissible
TTL. -/
theorem checkDatabaseNamesAndUsers_taxonomy_witness :
    checkDatabaseNamesAndUsers [roleDbA, roleDbB] 1 false =
      .ok ((allowedDatabaseNames [roleDbA, roleDbB] 1 false).filter
             (fun n => !(deniedDatabaseNames [roleDbA, roleDbB]).contains n),
           (allowedDatabaseUsers [roleDbA, roleDbB] 1 false).filter
             (fun u => !(deniedDatabaseUsers [roleDbA, roleDbB]).contains u)) :=
  (checkDatabaseNamesAndUsers_taxonomy [roleDbA, roleDbB] 1 false).2.2
    ⟨roleDbA, by decide, Or.inr (by decide)⟩ (by decide)

/-- Claim C2: approve-proposals are tallied per exact normalized role
subset.  Admitting one more authorized approve-proposal keeps the request
PENDING while its subset's tally stays below the approval threshold (and the
tally of every other subset is untouched, so votes split across distinct
subsets never combine), and transitions the request to APPROVED with exactly
that normalized subset as the resolved roles the moment the tally reaches
the threshold. -/
theorem submitProposal_threshold_exactness
    (authority : List String) (req : AccessRequest) (p : Proposal)
    (hpend : req.state = .pending)
    (happ : p.decision = .approve)
    (hself : p.author ≠ req.requester)
    (hauth : subsetOf (proposalSubset req.requestedRoles p) authority = true) :
    (tallyCount req.requestedRoles (req.proposals ++ [p]) (proposalSubset req.requestedRoles p) <
        req.approvalThreshold →
      requestStateRes (submitProposal authority req p) = some .pending ∧
      resolvedRolesRes (submitProposal authority req p) = some req.resolvedRoles) ∧
    (req.approvalThreshold ≤
        tallyCount req.requestedRoles (req.proposals ++ [p]) (proposalSubset req.requestedRoles p) →
      requestStateRes (submitProposal authority req p) = some .approved ∧
      resolvedRolesRes (submitProposal authority req p) =
        some (proposalSubset req.requestedRoles p)) ∧
    (∀ s, s ≠ proposalSubset req.requestedRoles p →
      tallyCount req.requestedRoles (req.proposals ++ [p]) s =
        tallyCount req.requestedRoles req.proposals s) := by
  have hbeq : (p.author == req.requester) = false := by
    simpa using hself
  refine ⟨?_, ?_, ?_⟩
  · intro hlt
    have hnot : ¬ req.approvalThreshold ≤
        tallyCount req.requestedRoles (req.proposals ++ [p]) (proposalSubset req.requestedRoles p) :=
      Nat.not_le.mpr hlt
    simp [submitProposal, hpend, hbeq, hauth, happ, hnot, requestStateRes, resolvedRolesRes, hpend]
  · intro hge
    simp [submitProposal, hpend, hbeq, hauth, happ, hge, requestStateRes, resolvedRolesRes]
  · intro s hs
    have hne : (proposalSubset req.requestedRoles p == s) = false := by
      simpa using fun h => hs (Eq.symm h)
    unfold tallyCount
    rw [List.filter_append]
    have : (List.filter (fun q => q.decision == ProposalDecision.approve &&
        proposalSubset req.requestedRoles q == s) [p]) = [] := by
      simp [hne]
    rw [this, List.append_nil]

/-- Witness for C2 at the design document's duplicate-subset scenario: after
bob's approval of the subset consisting of foo and bar, dana's approval of
the same normalized subset is the second of two required votes and resolves
the request to exactly that subset. -/
theorem submitProposal_threshold_exactness_witness :
    requestStateRes (submitProposal ["foo", "bar", "bin"]
        { daveRequest with proposals := [{ author := "bob", decision := .approve,
                                           roleSubset := some ["foo", "bar"] }] }
        { author := "dana", decision := .approve, roleSubset := some ["bar", "foo"] }) =
      some .approved ∧
    resolvedRolesRes (submitProposal ["foo", "bar", "bin"]
        { daveRequest with proposals := [{ author := "bob", decision := .approve,
                                           roleSubset := some ["foo", "bar"] }] }
        { author := "dana", decision := .approve, roleSubset := some ["bar", "foo"] }) =
      some (proposalSubset
        ({ daveRequest with proposals := [{ author := "bob", decision := .approve,
                                            roleSubset := some ["foo", "bar"] }] }).requestedRoles
        { author := "dana", decision := .approve, roleSubset := some ["bar", "foo"] }) :=
  (submitProposal_threshold_exactness ["foo", "bar", "bin"]
      { daveRequest with proposals := [{ author := "bob", decision := .approve,
                                         roleSubset := some ["foo", "bar"] }] }
      { author := "dana", decision := .approve, roleSubset := some ["bar", "foo"] }
      rfl rfl (by decide) (by decide)).2.1 (by decide)

/-- Claim C3 counterexample: expanding the node-label selector of the
missing-trait test case emits empty strings — the key referencing the
missing trait becomes the blank key, and the value referencing it becomes a
blank value kept in the pattern list — so a blank value is emitted in an
expanded label field, contradicting the claim that no expanded field ever
carries one. -/
theorem missing_trait_blank_label_counterexample :
    expandLabels [("foo", ["bar"])]
      [(.traitVar "external" "foo", [.literal "value"]),
       (.traitVar "external" "missing", [.literal "missing"]),
       (.literal "missing", [.traitVar "external" "missing", .literal "othervalue"])] =
      [("bar", ["value"]), ("", ["missing"]), ("missing", ["", "othervalue"])] ∧
    "" ∈ expandLabelValues [("foo", ["bar"])] [.traitVar "external" "missing", .literal "othervalue"] := by
  constructor
  · decide
  · decide

/-- Claim C3 (amended): a template occurrence referencing a trait absent
from the trait map expands to nothing; in the list fields (logins, kube
groups/users, db names/users) the containing entry is dropped and
contributes no output at all, while in label selectors the missing
occurrence is substituted by the empty string (a blank label key or a blank
value kept in the pattern list). -/
theorem missing_trait_drops_list_entry_blanks_label
    (traits : List (String × List String)) (nsp name : String)
    (h : traitValues traits name = []) :
    applyValueTraits traits (.traitVar nsp name) = none ∧
    (∀ (unixCheck : Bool) (rest : List Template),
      expandField traits unixCheck (.traitVar nsp name :: rest) = expandField traits unixCheck rest) ∧
    expandLabelKey traits (.traitVar nsp name) = "" ∧
    (∀ vs : List Template,
      expandLabelValues traits (.traitVar nsp name :: vs) =
        dedupFirst ("" :: (vs.map fun t => (applyValueTraits traits t).getD [""]).flatten)) := by
  have hnone : applyValueTraits traits (.traitVar nsp name) = none := by
    show (if (nsp == "internal" && !internalTraitNames.contains name) = true then none
          else
            let vs := traitValues traits name
            if vs.isEmpty = true then none else some vs) = none
    by_cases hint : ((nsp == "internal") && !internalTraitNames.contains name) = true
    · rw [if_pos hint]
    · rw [if_neg hint]
      simp [h]
  refine ⟨hnone, ?_, ?_, ?_⟩
  · intro unixCheck rest
    simp [expandField, hnone]
  · simp [expandLabelKey, hnone]
  · intro vs
    simp [expandLabelValues, hnone]

/-- Witness for C3 (amended) at the missing-trait test fixture. -/
theorem missing_trait_drops_list_entry_blanks_label_witness :
    applyValueTraits [("foo", ["bar"])] (.traitVar "internal" "bar") = none ∧
    expandField [("foo", ["bar"])] true [.traitVar "internal" "bar", .literal "root"] =
      expandField [("foo", ["bar"])] true [.literal "root"] ∧
    expandLabelKey [("foo", ["bar"])] (.traitVar "external" "missing") = "" :=
  ⟨(missing_trait_drops_list_entry_blanks_label [("foo", ["bar"])] "internal" "bar" (by decide)).1,
   (missing_trait_drops_list_entry_blanks_label [("foo", ["bar"])] "internal" "bar" (by decide)).2.1
     true [.literal "root"],
   (missing_trait_drops_list_entry_blanks_label [("foo", ["bar"])] "external" "missing"
     (by decide)).2.2.1⟩
